import Mathlib

/-!
Verification of the EI-Found community web application (React + Supabase).

This file gives a shallow embedding, in Lean 4, of the client-side logic of
the repository: the tweet feed data model, the optimistic like/unlike toggle
with rollback (src/pages/Dashboard.tsx `handleLike`,
src/pages/CommentsPage.tsx `handleLike`), the realtime patch appliers for
INSERT/UPDATE notifications, the signup allowlist gate
(src/contexts/AuthContext.tsx `signup`), the password-form validation
handlers, and the two tweet composers.  Asynchronous remote calls are
modelled by passing their results in as parameters, and the remote writes a
handler issues are collected in an output list; React `setState` updates
become pure functions on the local state.
-/

namespace EIFound

/-- The `profiles` sub-object attached to a tweet for display
(`display_name`, `avatar_url`), from the `Tweet` interface in
src/pages/Dashboard.tsx. -/
structure TweetProfiles where
  display_name : Option String
  avatar_url : Option String
deriving DecidableEq, Repr

/-- A row of the `profiles` table as fetched by the realtime INSERT handler
(`select user_id, display_name, avatar_url`). -/
structure ProfileRow where
  user_id : String
  display_name : Option String
  avatar_url : Option String
deriving DecidableEq, Repr

/-- The `Tweet` interface of src/pages/Dashboard.tsx and
src/pages/CommentsPage.tsx: a feed post together with its author profile and
the viewer's optimistic `user_liked` flag.  Counters are JavaScript numbers,
modelled as `Int`. -/
structure Tweet where
  id : String
  user_id : String
  content : String
  likes_count : Int
  comments_count : Int
  created_at : String
  profiles : Option TweetProfiles
  user_liked : Bool
deriving DecidableEq, Repr

/-- The authenticated user as far as the handlers use it (`user.id`). -/
structure AppUser where
  id : String
  name : String
  email : String
deriving DecidableEq, Repr

/-- A remote write against the `likes` table, as issued by `handleLike`. -/
inductive LikeWrite where
  | insertLike (tweet_id : String) (user_id : String)
  | deleteLike (tweet_id : String) (user_id : String)
deriving DecidableEq, Repr

/-- `handleLike` of src/pages/Dashboard.tsx (lines 321-386): look up the
tweet by id in the local list (returning unchanged if absent or if no user),
optimistically flip the flag and move the counter by one, issue the remote
like-delete (when `isLiked`) or like-insert (otherwise), and on remote
failure (`remoteOk = false`) map the snapshot counter and flag back over the
list.  Returns the final tweets list and the remote writes issued. -/
def dashboardHandleLike (user : Option AppUser) (tweets : List Tweet)
    (tweetId : String) (isLiked : Bool) (remoteOk : Bool) :
    List Tweet × List LikeWrite :=
  match user with
  | none => (tweets, [])
  | some u =>
    match tweets.find? (fun t => t.id == tweetId) with
    | none => (tweets, [])
    | some currentTweet =>
      let newLikesCount :=
        if isLiked then currentTweet.likes_count - 1
        else currentTweet.likes_count + 1
      let optimistic := tweets.map (fun tweet =>
        if tweet.id == tweetId then
          { tweet with likes_count := newLikesCount, user_liked := !isLiked }
        else tweet)
      if isLiked then
        -- Unlike: delete the matching likes row
        if remoteOk then
          (optimistic, [LikeWrite.deleteLike tweetId u.id])
        else
          -- Revert the optimistic update
          (optimistic.map (fun tweet =>
            if tweet.id == tweetId then
              { tweet with likes_count := currentTweet.likes_count,
                           user_liked := true }
            else tweet),
           [LikeWrite.deleteLike tweetId u.id])
      else
        -- Like: insert a likes row
        if remoteOk then
          (optimistic, [LikeWrite.insertLike tweetId u.id])
        else
          -- Revert the optimistic update
          (optimistic.map (fun tweet =>
            if tweet.id == tweetId then
              { tweet with likes_count := currentTweet.likes_count,
                           user_liked := false }
            else tweet),
           [LikeWrite.insertLike tweetId u.id])

/-- `handleLike` of src/pages/CommentsPage.tsx (lines 271-328): the same
optimistic toggle and rollback applied to the single `tweet` state of the
thread page. -/
def commentsHandleLike (user : Option AppUser) (tweet : Option Tweet)
    (isLiked : Bool) (remoteOk : Bool) : Option Tweet × List LikeWrite :=
  match user, tweet with
  | none, _ => (tweet, [])
  | _, none => (tweet, [])
  | some u, some tw =>
    let newLikesCount :=
      if isLiked then tw.likes_count - 1 else tw.likes_count + 1
    let optimistic : Option Tweet :=
      some { tw with likes_count := newLikesCount, user_liked := !isLiked }
    if isLiked then
      if remoteOk then (optimistic, [LikeWrite.deleteLike tw.id u.id])
      else
        (optimistic.map (fun prev =>
          { prev with likes_count := tw.likes_count, user_liked := true }),
         [LikeWrite.deleteLike tw.id u.id])
    else
      if remoteOk then (optimistic, [LikeWrite.insertLike tw.id u.id])
      else
        (optimistic.map (fun prev =>
          { prev with likes_count := tw.likes_count, user_liked := false }),
         [LikeWrite.insertLike tw.id u.id])

/-- The pure optimistic like/unlike transition applied to a single tweet by
`handleLike` before any network confirmation: counter moved by one in the
direction given by `isLiked`, flag flipped. -/
def optimisticLikeToggle (tweet : Tweet) (isLiked : Bool) : Tweet :=
  { tweet with
    likes_count :=
      if isLiked then tweet.likes_count - 1 else tweet.likes_count + 1,
    user_liked := !isLiked }

/-- Three consecutive consistent invocations of the optimistic toggle on the
same tweet, each passing the tweet's current flag as `isLiked` (the sequence
like, unlike, like when the initial flag is `false`). -/
def toggleThrice (t : Tweet) : Tweet :=
  let t1 := optimisticLikeToggle t t.user_liked
  let t2 := optimisticLikeToggle t1 t1.user_liked
  optimisticLikeToggle t2 t2.user_liked

/-- A sample feed post used to instantiate the theorems below. -/
def tweetA : Tweet :=
  { id := "t1", user_id := "u1", content := "hello", likes_count := 5,
    comments_count := 2, created_at := "2025-07-08", profiles := none,
    user_liked := false }

/-- A second sample feed post with a different id. -/
def tweetB : Tweet :=
  { id := "t2", user_id := "u2", content := "world", likes_count := 0,
    comments_count := 0, created_at := "2025-07-09",
    profiles := some { display_name := some "Bob", avatar_url := none },
    user_liked := true }

/-- A sample authenticated user. -/
def userA : AppUser := { id := "u9", name := "Ada", email := "ada@example.com" }

/-- The row payload (`payload.new`) of a realtime INSERT or UPDATE
notification for the `tweets` table. -/
structure TweetRowPayload where
  id : String
  user_id : String
  content : String
  likes_count : Int
  comments_count : Int
  created_at : String
deriving DecidableEq, Repr

/-- The UPDATE branch of the `tweets-changes` subscription in
src/pages/Dashboard.tsx (lines 238-253): locate the tweet by primary key and
replace only the two counters with the notification's values. -/
def applyTweetUpdate (tweets : List Tweet) (payload : TweetRowPayload) :
    List Tweet :=
  tweets.map (fun tweet =>
    if tweet.id == payload.id then
      { tweet with likes_count := payload.likes_count,
                   comments_count := payload.comments_count }
    else tweet)

/-- The `tweets` UPDATE branch of the subscription in
src/pages/CommentsPage.tsx (lines 213-230): replace the two counters of the
single tweet state with the notification's values (the subscription itself
is filtered to the page's tweet id). -/
def commentsApplyTweetUpdate (tweet : Option Tweet)
    (payload : TweetRowPayload) : Option Tweet :=
  tweet.map (fun prev =>
    { prev with likes_count := payload.likes_count,
                comments_count := payload.comments_count })

/-- The tweet built by the INSERT branch of the `tweets-changes`
subscription (src/pages/Dashboard.tsx lines 207-235) from the notification
payload and the result of the follow-up author-profile fetch (`none` when
that fetch failed). -/
def mkTweetFromInsert (payload : TweetRowPayload)
    (profileData : Option ProfileRow) : Tweet :=
  { id := payload.id, user_id := payload.user_id, content := payload.content,
    likes_count := payload.likes_count,
    comments_count := payload.comments_count,
    created_at := payload.created_at,
    profiles :=
      match profileData with
      | some p => some { display_name := p.display_name,
                         avatar_url := p.avatar_url }
      | none => none,
    user_liked := false }

/-- The INSERT branch of the `tweets-changes` subscription
(src/pages/Dashboard.tsx lines 200-236): prepend the new tweet to the feed
(`setTweets(prev => [newTweetWithProfile, ...prev])`). -/
def applyTweetInsert (tweets : List Tweet) (payload : TweetRowPayload)
    (profileData : Option ProfileRow) : List Tweet :=
  mkTweetFromInsert payload profileData :: tweets

/-- A row of the `comments` table as fetched by the comments INSERT handler
(`select id, user_id, content, created_at`). -/
structure CommentRow where
  id : String
  user_id : String
  content : String
  created_at : String
deriving DecidableEq, Repr

/-- The `Comment` interface of src/pages/CommentsPage.tsx: a comment row
together with its author's profile. -/
structure Comment where
  id : String
  user_id : String
  content : String
  created_at : String
  profiles : Option ProfileRow
deriving DecidableEq, Repr

/-- The `commentWithProfile` object built by the comments INSERT handler
from the fetched comment row and the author-profile fetch result. -/
def mkCommentWithProfile (row : CommentRow) (profile : Option ProfileRow) :
    Comment :=
  { id := row.id, user_id := row.user_id, content := row.content,
    created_at := row.created_at, profiles := profile }

/-- The `comments` INSERT branch of the subscription in
src/pages/CommentsPage.tsx (lines 180-210): when the follow-up fetch of the
comment row succeeds, append the comment to the local list and increment the
displayed tweet's `comments_count` by one; when it fails (`none`), do
nothing. -/
def applyCommentInsert (comments : List Comment) (tweet : Option Tweet)
    (newCommentData : Option CommentRow) (profile : Option ProfileRow) :
    List Comment × Option Tweet :=
  match newCommentData with
  | none => (comments, tweet)
  | some row =>
      (comments ++ [mkCommentWithProfile row profile],
       tweet.map (fun prev =>
         { prev with comments_count := prev.comments_count + 1 }))

/-- A sample UPDATE/INSERT payload carrying counters 7 and 3 for `tweetA`'s
primary key. -/
def payloadA : TweetRowPayload :=
  { id := "t1", user_id := "u1", content := "hello", likes_count := 7,
    comments_count := 3, created_at := "2025-07-08" }

/-- A sample payload with a primary key absent from the sample feed. -/
def payloadC : TweetRowPayload :=
  { id := "t3", user_id := "u3", content := "new post", likes_count := 0,
    comments_count := 0, created_at := "2025-07-10" }

/-- A remote auth-service call issued by the signup flow of
src/contexts/AuthContext.tsx. -/
inductive AuthCall where
  | rpcIsEmailAllowed (email : String)
  | authSignUp (email : String) (password : String) (name : String)
deriving DecidableEq, Repr

/-- The observable outcome of the `signup` function: normal return, or a
thrown error carrying its message. -/
inductive SignupOutcome where
  | ok
  | thrown (message : String)
deriving DecidableEq, Repr

/-- The error message thrown when the allowlist predicate rejects the
email. -/
def notAuthorizedMessage : String :=
  "This email is not authorized for registration. Please contact an administrator."

/-- The error message thrown when the allowlist RPC itself fails. -/
def verifyFailedMessage : String :=
  "Unable to verify email authorization. Please try again."

/-- `signup` of src/contexts/AuthContext.tsx (lines 123-151): call the
server-side `is_email_allowed` predicate with the candidate email; on an RPC
error throw the verification-failure message; if the reply is not `true`
(JavaScript falsy: `false` or `null`) throw the not-authorized message;
otherwise issue `supabase.auth.signUp` and rethrow its error if any.
`allowlistReply` is the RPC result (`Except` error or data, the data being a
nullable boolean) and `signUpError` the error of the sign-up call if it was
issued and failed.  Returns the outcome and the auth calls issued, in
order. -/
def signup (email : String) (password : String) (name : String)
    (allowlistReply : Except String (Option Bool))
    (signUpError : Option String) : SignupOutcome × List AuthCall :=
  match allowlistReply with
  | .error _ =>
      (.thrown verifyFailedMessage, [AuthCall.rpcIsEmailAllowed email])
  | .ok isAllowed =>
      if !(isAllowed.getD false) then
        (.thrown notAuthorizedMessage, [AuthCall.rpcIsEmailAllowed email])
      else
        match signUpError with
        | some msg =>
            (.thrown msg,
             [AuthCall.rpcIsEmailAllowed email,
              AuthCall.authSignUp email password name])
        | none =>
            (.ok,
             [AuthCall.rpcIsEmailAllowed email,
              AuthCall.authSignUp email password name])

/-- A toast notification as raised by the form handlers
(`variant: "destructive"` becomes `destructive := true`). -/
structure ToastMsg where
  title : String
  description : String
  destructive : Bool
deriving DecidableEq, Repr

/-- The `formData` state of the signup tab of src/pages/LoginPage.tsx. -/
structure SignupFormData where
  email : String
  password : String
  name : String
  confirmPassword : String
deriving DecidableEq, Repr

/-- The observable result of one run of a form submit handler: the form
state after the run, the toasts raised, and whether the remote call the
handler can make was actually issued. -/
structure FormRunResult (Form : Type) where
  formData : Form
  toasts : List ToastMsg
  remoteCallIssued : Bool
deriving Repr

/-- `handleSignup` of src/pages/LoginPage.tsx (lines 48-90): if the two
passwords differ, toast "Passwords don\x27t match" and return before any
network call; if the password is shorter than 6 characters, toast "Password
too short" and return; otherwise call `signup` (whose thrown message, if
any, is `signupError`), toasting success (and resetting the form) or
failure. -/
def handleSignup (fd : SignupFormData) (signupError : Option String) :
    FormRunResult SignupFormData :=
  if fd.password ≠ fd.confirmPassword then
    { formData := fd,
      toasts := [{ title := "Passwords don\x27t match",
                   description := "Please make sure your passwords match.",
                   destructive := true }],
      remoteCallIssued := false }
  else if fd.password.length < 6 then
    { formData := fd,
      toasts := [{ title := "Password too short",
                   description :=
                     "Password must be at least 6 characters long.",
                   destructive := true }],
      remoteCallIssued := false }
  else
    match signupError with
    | none =>
        { formData := { email := "", password := "", name := "",
                        confirmPassword := "" },
          toasts := [{ title := "Account created successfully!",
                       description :=
                         "Welcome to EI Found. You can now sign in.",
                       destructive := false }],
          remoteCallIssued := true }
    | some msg =>
        { formData := fd,
          toasts := [{ title := "Signup failed", description := msg,
                       destructive := true }],
          remoteCallIssued := true }

/-- The `formData` state of src/components/ChangePasswordForm.tsx. -/
structure ChangePasswordFormData where
  currentPassword : String
  newPassword : String
  confirmPassword : String
deriving DecidableEq, Repr

/-- `handleChangePassword` of src/components/ChangePasswordForm.tsx (lines
18-69): the same two validations on (newPassword, confirmPassword) before
the `supabase.auth.updateUser` call; on success the form is reset and a
success toast raised, on failure a destructive toast. -/
def handleChangePassword (fd : ChangePasswordFormData)
    (updateError : Option String) : FormRunResult ChangePasswordFormData :=
  if fd.newPassword ≠ fd.confirmPassword then
    { formData := fd,
      toasts := [{ title := "Passwords don\x27t match",
                   description :=
                     "Please make sure your new passwords match.",
                   destructive := true }],
      remoteCallIssued := false }
  else if fd.newPassword.length < 6 then
    { formData := fd,
      toasts := [{ title := "Password too short",
                   description :=
                     "Password must be at least 6 characters long.",
                   destructive := true }],
      remoteCallIssued := false }
  else
    match updateError with
    | none =>
        { formData := { currentPassword := "", newPassword := "",
                        confirmPassword := "" },
          toasts := [{ title := "Password changed",
                       description :=
                         "Your password has been successfully updated.",
                       destructive := false }],
          remoteCallIssued := true }
    | some msg =>
        { formData := fd,
          toasts := [{ title := "Change failed", description := msg,
                       destructive := true }],
          remoteCallIssued := true }

/-- The `formData` state of the reset-password page (ResetPasswordPage). -/
structure ResetPasswordFormData where
  password : String
  confirmPassword : String
deriving DecidableEq, Repr

/-- `handleResetPassword` of the reset-password page (src/unnamed/part_000,
lines 36-82): the same two validations on (password, confirmPassword)
before the `supabase.auth.updateUser` call; on success it navigates to
/dashboard. -/
def handleResetPassword (fd : ResetPasswordFormData)
    (updateError : Option String) :
    FormRunResult ResetPasswordFormData × Option String :=
  if fd.password ≠ fd.confirmPassword then
    ({ formData := fd,
       toasts := [{ title := "Passwords don\x27t match",
                    description := "Please make sure your passwords match.",
                    destructive := true }],
       remoteCallIssued := false }, none)
  else if fd.password.length < 6 then
    ({ formData := fd,
       toasts := [{ title := "Password too short",
                    description :=
                      "Password must be at least 6 characters long.",
                    destructive := true }],
       remoteCallIssued := false }, none)
  else
    match updateError with
    | none =>
        ({ formData := fd,
           toasts := [{ title := "Password updated",
                        description :=
                          "Your password has been successfully updated.",
                        destructive := false }],
           remoteCallIssued := true }, some "/dashboard")
    | some msg =>
        ({ formData := fd,
           toasts := [{ title := "Update failed", description := msg,
                        destructive := true }],
           remoteCallIssued := true }, none)

/-- JavaScript `String.prototype.trim()` as used by the composers and the
comment form: strip leading and trailing whitespace. -/
def jsTrim (s : String) : String :=
  String.mk (((s.data.dropWhile Char.isWhitespace).reverse.dropWhile
    Char.isWhitespace).reverse)

/-- The row inserted into the `tweets` table by a composer. -/
structure TweetInsertRow where
  user_id : String
  content : String
deriving DecidableEq, Repr

/-- `handleSendTweet` of src/pages/Dashboard.tsx (lines 291-319): return
without any remote call when the trimmed content is empty, no user is
present, or the raw content exceeds 280 characters; otherwise insert the
trimmed content. -/
def handleSendTweet (user : Option AppUser) (newTweet : String) :
    Option TweetInsertRow :=
  if jsTrim newTweet = "" then none
  else
    match user with
    | none => none
    | some u =>
        if newTweet.length > 280 then none
        else some { user_id := u.id, content := jsTrim newTweet }

/-- The `disabled` predicate of the dialog composer's submit button
(src TweetComposer, `!content.trim() || isOverLimit || isSubmitting` with
`isOverLimit = 280 - content.length < 0`). -/
def composerSubmitDisabled (content : String) (isSubmitting : Bool) : Bool :=
  jsTrim content == "" || decide ((280 : Int) - content.length < 0) ||
    isSubmitting

/-- `handleSubmit` of the dialog composer (TweetComposer, in the same
source bundle as src/components/ChangePasswordForm.tsx, lines 302-333):
return without a remote call when the trimmed content is empty, no user is
present, or a submission is already in flight; otherwise insert the trimmed
content.  (The 280-character limit is enforced for this composer by the
submit button's `disabled` predicate, not inside the handler.) -/
def composerHandleSubmit (user : Option AppUser) (content : String)
    (isSubmitting : Bool) : Option TweetInsertRow :=
  if jsTrim content = "" then none
  else
    match user with
    | none => none
    | some u =>
        if isSubmitting then none
        else some { user_id := u.id, content := jsTrim content }

/-- A list maps to itself under a function fixing each of its elements. -/
theorem map_eq_self_of_fixes {α : Type} (l : List α) (f : α → α)
    (h : ∀ a ∈ l, f a = a) : l.map f = l := by
  induction l with
  | nil => rfl
  | cons x xs ih =>
    simp only [List.map_cons, List.cons.injEq]
    exact ⟨h x (List.mem_cons_self x xs),
           ih (fun a ha => h a (List.mem_cons_of_mem x ha))⟩

/-- C1: for a like or unlike toggle on a post present in the local state with
flag equal to the `isLiked` argument, if the remote write fails then the
rollback restores the local state exactly: on the dashboard the whole tweets
list (hence the toggled post's flag, counter and every other field) equals
the pre-mutation snapshot, and on the thread page the single tweet state
equals its pre-mutation snapshot. -/
theorem like_rollback_restores_snapshot
    (u : AppUser) (tweets : List Tweet) (tweetId : String) (isLiked : Bool)
    (t : Tweet)
    (hfind : tweets.find? (fun x => x.id == tweetId) = some t)
    (hflag : t.user_liked = isLiked)
    (hids : (tweets.map Tweet.id).Nodup)
    (tw : Tweet) (hflag2 : tw.user_liked = isLiked) :
    (dashboardHandleLike (some u) tweets tweetId isLiked false).1 = tweets ∧
    (commentsHandleLike (some u) (some tw) isLiked false).1 = some tw := by
  have ht : t ∈ tweets := List.mem_of_find?_eq_some hfind
  have htid : t.id = tweetId := by
    have hp := List.find?_some hfind
    simpa using hp
  constructor
  · simp only [dashboardHandleLike, hfind]
    cases isLiked with
    | false =>
      simp only [Bool.false_eq_true, reduceIte, List.map_map]
      apply map_eq_self_of_fixes
      intro x hx
      by_cases hxid : x.id = tweetId
      · have hx_t : x = t :=
          List.inj_on_of_nodup_map hids hx ht (by rw [hxid, htid])
        subst hx_t
        obtain ⟨xid, xuid, xc, xlc, xcc, xca, xp, xul⟩ := x
        simp only at hflag
        subst hflag
        simp only at hxid
        subst hxid
        simp
      · simp [hxid]
    | true =>
      simp only [reduceIte, List.map_map]
      apply map_eq_self_of_fixes
      intro x hx
      by_cases hxid : x.id = tweetId
      · have hx_t : x = t :=
          List.inj_on_of_nodup_map hids hx ht (by rw [hxid, htid])
        subst hx_t
        obtain ⟨xid, xuid, xc, xlc, xcc, xca, xp, xul⟩ := x
        simp only at hflag
        subst hflag
        simp only at hxid
        subst hxid
        simp
      · simp [hxid]
  · cases isLiked with
    | false =>
      obtain ⟨a, b, c, d, e, f, g, ul⟩ := tw
      simp only at hflag2
      subst hflag2
      simp [commentsHandleLike]
    | true =>
      obtain ⟨a, b, c, d, e, f, g, ul⟩ := tw
      simp only at hflag2
      subst hflag2
      simp [commentsHandleLike]

/-- Witness for C1 at a concrete feed: a failed like on `tweetA` in the feed
`[tweetA, tweetB]` leaves both the feed and the thread-page tweet unchanged. -/
theorem like_rollback_restores_snapshot_witness :
    (dashboardHandleLike (some userA) [tweetA, tweetB] "t1" false false).1 =
      [tweetA, tweetB] ∧
    (commentsHandleLike (some userA) (some tweetA) false false).1 =
      some tweetA :=
  like_rollback_restores_snapshot userA [tweetA, tweetB] "t1" false tweetA
    (by decide) (by decide) (by decide) tweetA (by decide)

/-- C3: applying the pure optimistic transition three times in the sequence
like, unlike, like (each invocation passing the current flag, the first one
on a not-yet-liked post) yields the initial tweet with its counter increased
by exactly 1, its flag flipped, and all other fields unchanged. -/
theorem optimistic_like_unlike_like_net_one
    (t : Tweet) (h : t.user_liked = false) :
    toggleThrice t =
      { t with likes_count := t.likes_count + 1, user_liked := !t.user_liked } := by
  simp only [toggleThrice, optimisticLikeToggle, h]
  simp only [Bool.not_false, Bool.not_true, Bool.false_eq_true, reduceIte]
  congr 1
  omega

/-- Witness for C3: the like→unlike→like sequence on `tweetA` (counter 5,
flag false) ends at counter 6, flag true. -/
theorem optimistic_like_unlike_like_net_one_witness :
    toggleThrice tweetA =
      { tweetA with likes_count := tweetA.likes_count + 1,
                    user_liked := !tweetA.user_liked } :=
  optimistic_like_unlike_like_net_one tweetA (by decide)

/-- C10: invoking the like/unlike toggle with a tweet id that occurs nowhere
in the current local tweets list is a complete no-op: the local state is
returned unmodified and no remote insert or delete is issued. -/
theorem like_missing_id_noop
    (u : Option AppUser) (tweets : List Tweet) (tweetId : String)
    (isLiked remoteOk : Bool)
    (habsent : ∀ t ∈ tweets, t.id ≠ tweetId) :
    dashboardHandleLike u tweets tweetId isLiked remoteOk = (tweets, []) := by
  have hfind : tweets.find? (fun t => t.id == tweetId) = none := by
    rw [List.find?_eq_none]
    intro x hx
    simpa using habsent x hx
  cases u with
  | none => rfl
  | some u => simp only [dashboardHandleLike, hfind]

/-- Witness for C10: toggling id `t9`, absent from `[tweetA, tweetB]`, leaves
the feed untouched and issues no write. -/
theorem like_missing_id_noop_witness :
    dashboardHandleLike (some userA) [tweetA, tweetB] "t9" false true =
      ([tweetA, tweetB], []) :=
  like_missing_id_noop (some userA) [tweetA, tweetB] "t9" false true
    (by decide)

/-- C2: an UPDATE notification merged into the feed sets the matching post's
`likes_count` and `comments_count` to exactly the notification's values and
leaves every other field of that post (id, user_id, content, created_at,
profiles, user_liked) unchanged; posts whose primary key differs are left
entirely unchanged.  The same holds for the thread page's single tweet
state. -/
theorem update_merges_counters_only
    (tweets : List Tweet) (p : TweetRowPayload) (i : Nat)
    (hi : i < tweets.length)
    (hj : i < (applyTweetUpdate tweets p).length) (tw : Tweet) :
    ((tweets.get ⟨i, hi⟩).id = p.id →
      (applyTweetUpdate tweets p).get ⟨i, hj⟩ =
        { tweets.get ⟨i, hi⟩ with likes_count := p.likes_count,
                                  comments_count := p.comments_count }) ∧
    ((tweets.get ⟨i, hi⟩).id ≠ p.id →
      (applyTweetUpdate tweets p).get ⟨i, hj⟩ = tweets.get ⟨i, hi⟩) ∧
    commentsApplyTweetUpdate (some tw) p =
      some { tw with likes_count := p.likes_count,
                     comments_count := p.comments_count } := by
  refine ⟨?_, ?_, rfl⟩
  · intro hid
    simp only [applyTweetUpdate, List.get_eq_getElem, List.getElem_map]
    rw [if_pos (by simpa using hid)]
  · intro hid
    simp only [applyTweetUpdate, List.get_eq_getElem, List.getElem_map]
    rw [if_neg (by simpa using hid)]

/-- Witness for C2: merging `payloadA` (counters 7, 3) into `[tweetA,
tweetB]` rewrites `tweetA`'s counters to 7 and 3 and nothing else. -/
theorem update_merges_counters_only_witness :
    (applyTweetUpdate [tweetA, tweetB] payloadA).get ⟨0, by decide⟩ =
      { tweetA with likes_count := 7, comments_count := 3 } := by
  have h :=
    (update_merges_counters_only [tweetA, tweetB] payloadA 0 (by decide)
      (by decide) tweetA).1 (by decide)
  exact h

/-- C4: each INSERT notification prepends the newly built post to the front
of the in-memory list, leaving the existing entries and their order intact;
in particular, from the empty feed an INSERT for P1 yields [P1], and a
subsequent INSERT for P2 yields [P2, P1]. -/
theorem insert_prepends_to_feed
    (tweets : List Tweet) (p1 p2 : TweetRowPayload)
    (f1 f2 : Option ProfileRow) :
    applyTweetInsert tweets p1 f1 = mkTweetFromInsert p1 f1 :: tweets ∧
    applyTweetInsert [] p1 f1 = [mkTweetFromInsert p1 f1] ∧
    applyTweetInsert (applyTweetInsert [] p1 f1) p2 f2 =
      [mkTweetFromInsert p2 f2, mkTweetFromInsert p1 f1] :=
  ⟨rfl, rfl, rfl⟩

/-- C5: an INSERT notification whose follow-up author-profile fetch failed
still adds the post to the feed exactly once (never zero times, never
twice), with a `none` author profile. -/
theorem insert_with_failed_profile_fetch_adds_once
    (tweets : List Tweet) (p : TweetRowPayload)
    (hfresh : ∀ t ∈ tweets, t.id ≠ p.id) :
    (applyTweetInsert tweets p none).countP (fun t => t.id == p.id) = 1 ∧
    (applyTweetInsert tweets p none).find? (fun t => t.id == p.id) =
      some (mkTweetFromInsert p none) ∧
    (mkTweetFromInsert p none).profiles = none := by
  refine ⟨?_, ?_, rfl⟩
  · have h0 : tweets.countP (fun t => t.id == p.id) = 0 := by
      rw [List.countP_eq_zero]
      intro x hx
      simpa using hfresh x hx
    simp [applyTweetInsert, List.countP_cons, h0, mkTweetFromInsert]
  · apply List.find?_cons_of_pos
    simp [mkTweetFromInsert]

/-- Witness for C5: inserting `payloadC` (id "t3") with a failed profile
fetch into `[tweetA, tweetB]` yields exactly one post with id "t3", found
with a `none` profile. -/
theorem insert_with_failed_profile_fetch_adds_once_witness :
    (applyTweetInsert [tweetA, tweetB] payloadC none).countP
        (fun t => t.id == payloadC.id) = 1 ∧
    (applyTweetInsert [tweetA, tweetB] payloadC none).find?
        (fun t => t.id == payloadC.id) =
      some (mkTweetFromInsert payloadC none) ∧
    (mkTweetFromInsert payloadC none).profiles = none :=
  insert_with_failed_profile_fetch_adds_once [tweetA, tweetB] payloadC
    (by decide)

/-- C9: a comment INSERT notification whose follow-up row fetch succeeded
appends the new comment (with its fetched profile) to the end of the local
comments list and increments the displayed tweet's `comments_count` by
exactly one, leaving the tweet's other fields unchanged. -/
theorem comment_insert_appends_and_increments
    (comments : List Comment) (t : Tweet) (row : CommentRow)
    (profile : Option ProfileRow) :
    applyCommentInsert comments (some t) (some row) profile =
      (comments ++ [mkCommentWithProfile row profile],
       some { t with comments_count := t.comments_count + 1 }) ∧
    (applyCommentInsert comments (some t) (some row) profile).1.take
        comments.length = comments ∧
    (applyCommentInsert comments (some t) (some row) profile).1.getLast? =
      some (mkCommentWithProfile row profile) := by
  refine ⟨rfl, ?_, ?_⟩
  · simp [applyCommentInsert]
  · simp [applyCommentInsert]

/-- C6: the allowlist predicate is consulted first (the RPC is the first
auth call issued); the identity-creation call is issued exactly when the
predicate replied `true`; and a `false` (or null) reply makes signup fail
with the specific not-authorized message. -/
theorem signup_allowlist_gate
    (email password name : String)
    (allowlistReply : Except String (Option Bool))
    (signUpError : Option String) :
    (AuthCall.authSignUp email password name ∈
        (signup email password name allowlistReply signUpError).2 ↔
      allowlistReply = .ok (some true)) ∧
    (allowlistReply = .ok (some false) ∨ allowlistReply = .ok none →
      (signup email password name allowlistReply signUpError).1 =
        .thrown notAuthorizedMessage) ∧
    (signup email password name allowlistReply signUpError).2.head? =
      some (AuthCall.rpcIsEmailAllowed email) := by
  cases allowlistReply with
  | error e => simp [signup]
  | ok isAllowed =>
    cases isAllowed with
    | none => cases signUpError <;> simp [signup]
    | some b => cases b <;> cases signUpError <;> simp [signup]

/-- Witness for C6: a `false` allowlist reply yields the not-authorized
error and no sign-up call. -/
theorem signup_allowlist_gate_witness :
    (signup "eve@example.com" "hunter42" "Eve" (Except.ok (some false))
        none).1 = SignupOutcome.thrown notAuthorizedMessage :=
  (signup_allowlist_gate "eve@example.com" "hunter42" "Eve"
      (Except.ok (some false)) none).2.1 (Or.inl rfl)

/-- C7: when the two entered passwords differ or the password is shorter
than 6 characters, each of the signup, change-password and reset-password
handlers raises exactly one destructive (dismissible) toast, issues no
remote call of any kind, and leaves the form state unchanged (and the
reset-password handler does not navigate). -/
theorem validation_precedes_network
    (sfd : SignupFormData) (cfd : ChangePasswordFormData)
    (rfd : ResetPasswordFormData) (e1 e2 e3 : Option String)
    (h1 : sfd.password ≠ sfd.confirmPassword ∨ sfd.password.length < 6)
    (h2 : cfd.newPassword ≠ cfd.confirmPassword ∨ cfd.newPassword.length < 6)
    (h3 : rfd.password ≠ rfd.confirmPassword ∨ rfd.password.length < 6) :
    ((handleSignup sfd e1).remoteCallIssued = false ∧
     (handleSignup sfd e1).formData = sfd ∧
     (handleSignup sfd e1).toasts.length = 1 ∧
     (handleSignup sfd e1).toasts.all (fun t => t.destructive) = true) ∧
    ((handleChangePassword cfd e2).remoteCallIssued = false ∧
     (handleChangePassword cfd e2).formData = cfd ∧
     (handleChangePassword cfd e2).toasts.length = 1 ∧
     (handleChangePassword cfd e2).toasts.all (fun t => t.destructive) =
       true) ∧
    ((handleResetPassword rfd e3).1.remoteCallIssued = false ∧
     (handleResetPassword rfd e3).1.formData = rfd ∧
     (handleResetPassword rfd e3).2 = none ∧
     (handleResetPassword rfd e3).1.toasts.length = 1 ∧
     (handleResetPassword rfd e3).1.toasts.all (fun t => t.destructive) =
       true) := by
  refine ⟨?_, ?_, ?_⟩
  · by_cases hm : sfd.password = sfd.confirmPassword
    · have hs : sfd.password.length < 6 := by
        rcases h1 with h | h
        · exact absurd hm h
        · exact h
      rw [hm] at hs
      simp [handleSignup, hm, hs]
    · simp [handleSignup, hm]
  · by_cases hm : cfd.newPassword = cfd.confirmPassword
    · have hs : cfd.newPassword.length < 6 := by
        rcases h2 with h | h
        · exact absurd hm h
        · exact h
      rw [hm] at hs
      simp [handleChangePassword, hm, hs]
    · simp [handleChangePassword, hm]
  · by_cases hm : rfd.password = rfd.confirmPassword
    · have hs : rfd.password.length < 6 := by
        rcases h3 with h | h
        · exact absurd hm h
        · exact h
      rw [hm] at hs
      simp [handleResetPassword, hm, hs]
    · simp [handleResetPassword, hm]

/-- Witness for C7: a too-short signup password, mismatched change-password
fields, and a too-short reset password each leave the remote call unissued. -/
theorem validation_precedes_network_witness :
    (handleSignup
        { email := "a@b.c", password := "abc", name := "A",
          confirmPassword := "abc" } none).remoteCallIssued = false ∧
    (handleChangePassword
        { currentPassword := "old", newPassword := "secret1",
          confirmPassword := "secret2" } none).remoteCallIssued = false ∧
    (handleResetPassword
        { password := "abc", confirmPassword := "abc" }
        none).1.remoteCallIssued = false := by
  have h := validation_precedes_network
    { email := "a@b.c", password := "abc", name := "A",
      confirmPassword := "abc" }
    { currentPassword := "old", newPassword := "secret1",
      confirmPassword := "secret2" }
    { password := "abc", confirmPassword := "abc" }
    none none none (Or.inr (by decide)) (Or.inl (by decide))
    (Or.inr (by decide))
  exact ⟨h.1.1, h.2.1.1, h.2.2.1⟩

/-- C8: neither composer issues a tweet insert for content that is empty
after trimming or longer than 280 characters, and an issued insert implies
non-empty trimmed content of at most 280 characters.  For the dialog
composer the length bound comes from its submit button's `disabled`
predicate, which must be false for a submission to occur. -/
theorem composer_content_gate
    (user : Option AppUser) (s content : String)
    (hEnabled : composerSubmitDisabled content false = false) :
    (jsTrim s = "" ∨ s.length > 280 → handleSendTweet user s = none) ∧
    (∀ row, handleSendTweet user s = some row →
      jsTrim s ≠ "" ∧ s.length ≤ 280) ∧
    (∀ row, composerHandleSubmit user content false = some row →
      jsTrim content ≠ "" ∧ content.length ≤ 280) := by
  have hlen : content.length ≤ 280 := by
    simp only [composerSubmitDisabled, Bool.or_eq_false_iff,
      decide_eq_false_iff_not, not_lt] at hEnabled
    omega
  refine ⟨?_, ?_, ?_⟩
  · intro h
    rcases h with h | h
    · cases user <;> simp [handleSendTweet, h]
    · cases user <;> simp [handleSendTweet, h]
  · intro row hrow
    by_cases h1 : jsTrim s = ""
    · simp [handleSendTweet, h1] at hrow
    · cases user with
      | none => simp [handleSendTweet, h1] at hrow
      | some u =>
        by_cases h2 : s.length > 280
        · simp [handleSendTweet, h1, h2] at hrow
        · exact ⟨h1, by omega⟩
  · intro row hrow
    by_cases h1 : jsTrim content = ""
    · simp [composerHandleSubmit, h1] at hrow
    · exact ⟨h1, hlen⟩

/-- Witness for C8: with a user present, the inline composer inserts the
short content "hi", and the dialog composer's button is enabled for
"hello". -/
theorem composer_content_gate_witness :
    jsTrim "hi" ≠ "" ∧ "hi".length ≤ 280 :=
  (composer_content_gate (some userA) "hi" "hello" (by decide)).2.1
    { user_id := "u9", content := "hi" } (by decide)

end EIFound
